import Mathlib

/-!
Shallow embedding of the watchdog supervision scripts
(`watchdog_monitor.py`, `watchdog_guardian.py`, `file_status_viewer.py`).

Timestamps are modelled as `Int` seconds.  Each definition carries a doc
comment naming the source function and lines it embeds.
-/

namespace Watchdog

/-! ## Heartbeat check (`WatchdogMonitor.check_heartbeat`, lines 58-77) -/

/-- The possible observable contents of the heartbeat file as seen by
`check_heartbeat`: the file may be missing (`os.path.exists` false), may fail
to parse as JSON (`json.load` raises, caught by the `except` clause), or may
parse to a map whose `"timestamp"` field is present (`some t`) or absent
(`none`). -/
inductive HeartbeatFile
  | missing
  | unparsable
  | record (timestampField : Option Int)
deriving DecidableEq, Repr

/-- Classification produced by `check_heartbeat`: `(True, normal msg)` is
`alive`, `(False, timeout msg)` is `stale`, and the two error returns
(missing file, read failure) are `unreadable`. -/
inductive HBStatus
  | alive (elapsed : Int)
  | stale (elapsed : Int)
  | unreadable
deriving DecidableEq, Repr

/-- `WatchdogMonitor.check_heartbeat` (lines 58-77): if the file is absent
return the "not exists" error; if `json.load` raises return the "read
failure" error; otherwise `last_timestamp = data.get("timestamp", 0)`,
`elapsed = current_time - last_timestamp`, and the record is stale exactly
when `elapsed > heartbeat_timeout`. -/
def check_heartbeat (f : HeartbeatFile) (now heartbeat_timeout : Int) : HBStatus :=
  match f with
  | .missing => .unreadable
  | .unparsable => .unreadable
  | .record tsField =>
      let last_timestamp := tsField.getD 0
      let elapsed := now - last_timestamp
      if elapsed > heartbeat_timeout then .stale elapsed else .alive elapsed

/-! ## Restart limiter
(`WatchdogMonitor.check_restart_limit`, lines 79-90, and
`WatchdogGuardian.is_too_many_restarts`, lines 110-118) -/

/-- The pruning comprehension shared by both limiters:
`[t for t in history if t > now - window]` (window is one hour, 3600 s). -/
def prune_history (hist : List Int) (now window : Int) : List Int :=
  hist.filter (fun t => decide (now - window < t))

/-- `WatchdogMonitor.check_restart_limit` (lines 79-90): prune
`restart_history` in place to the trailing hour, then deny (`can_restart =
False`) when the pruned count is `>= max_restarts_per_hour`.  Returns
`(can_restart, new restart_history)`. -/
def check_restart_limit (restart_history : List Int) (now : Int)
    (max_restarts_per_hour : Nat) : Bool × List Int :=
  let pruned := prune_history restart_history now 3600
  if pruned.length ≥ max_restarts_per_hour then (false, pruned) else (true, pruned)

/-- `WatchdogGuardian.is_too_many_restarts` (lines 110-118): prune
`restart_times` in place to the trailing hour and report whether the pruned
count is `>= max_restarts_per_hour`.  Returns `(too_many, new
restart_times)`. -/
def is_too_many_restarts (restart_times : List Int) (now : Int)
    (max_restarts_per_hour : Nat) : Bool × List Int :=
  let pruned := prune_history restart_times now 3600
  (decide (pruned.length ≥ max_restarts_per_hour), pruned)

/-! ## Process stop paths -/

/-- Abstraction of the supervised worker process for the stop paths:
`running` is whether the process is currently alive, and
`graceful_exit_after` is how the process responds to a graceful terminate
request (`some g`: it exits `g` seconds after `terminate`; `none`: the
graceful path hangs and the process never exits voluntarily). -/
structure WorkerProc where
  running : Bool
  graceful_exit_after : Option Nat
deriving DecidableEq, Repr

/-- Whether the process, once sent `terminate`, exits within `w` seconds. -/
def responds_within (p : WorkerProc) (w : Nat) : Bool :=
  match p.graceful_exit_after with
  | some g => decide (g ≤ w)
  | none => false

/-- Outcome of a stop attempt: whether a forced `kill` was issued, and
whether the worker process is still running afterwards. -/
structure StopResult where
  kill_issued : Bool
  still_running : Bool
deriving DecidableEq, Repr

/-- The stop phase of `WatchdogMonitor.restart_main_program` (lines
104-112): if the worker process exists, `proc.terminate()` then
`proc.wait(timeout=10)`; if the wait times out the raised exception is
caught and only logged — no `kill` is ever issued, so a hung worker stays
running. -/
def monitor_restart_stop (p : WorkerProc) : StopResult :=
  if p.running then
    if responds_within p 10 then ⟨false, false⟩ else ⟨false, true⟩
  else ⟨false, false⟩

/-- The `KeyboardInterrupt` handler of `WatchdogGuardian.run` (lines
227-236): if the owned process is alive (`poll() is None`), `terminate()`,
`time.sleep(2)`, and if it is still alive afterwards, `kill()`. -/
def guardian_shutdown_stop (p : WorkerProc) : StopResult :=
  if p.running then
    if responds_within p 2 then ⟨false, false⟩ else ⟨true, false⟩
  else ⟨false, false⟩

/-- The `KeyboardInterrupt` handler of `WatchdogMonitor.monitor_loop`
(lines 224-227): log, set `self.running = False`, `break`.  It performs no
operation whatsoever on the spawned worker process, so the worker keeps its
running state.  The second component records that the loop exits. -/
def monitor_interrupt (p : WorkerProc) : StopResult × Bool :=
  (⟨false, p.running⟩, true)

/-- The full `KeyboardInterrupt` path of `WatchdogGuardian.run`: the
graceful-then-forced stop followed by `break` (the loop exits). -/
def guardian_interrupt (p : WorkerProc) : StopResult × Bool :=
  (guardian_shutdown_stop p, true)

/-! ## Restart / relaunch paths -/

/-- `WatchdogMonitor.restart_main_program` (lines 92-139) with the
`subprocess.Popen` launch abstracted by `start_ok` (the old-process stop is
modelled separately by `monitor_restart_stop`, which does not affect the
history): first `check_restart_limit` prunes the history and may deny;
on denial return `False` with the pruned history; otherwise launch — on
success append `now` to the history and return `True`, and if `Popen`
raises, the surrounding `except` returns `False` with nothing appended. -/
def restart_main_program (restart_history : List Int) (now : Int)
    (max_restarts_per_hour : Nat) (start_ok : Bool) : Bool × List Int :=
  let r := check_restart_limit restart_history now max_restarts_per_hour
  if r.1 = false then (false, r.2)
  else if start_ok then (true, r.2 ++ [now])
  else (false, r.2)

/-- The sleeps performed by `WatchdogMonitor.monitor_loop` (lines 213-222)
after a restart attempt: `time.sleep(30)` then `time.sleep(check_interval)`
on success, just `time.sleep(check_interval)` on failure (which includes a
denied admission). -/
def monitor_sleep_after_restart (success : Bool) (check_interval : Nat) : Nat :=
  if success then 30 + check_interval else check_interval

/-- The code of `WatchdogGuardian.run` that executes after the worker
process exits at time `now` (lines 212-225): append `now` to
`restart_times`, call `is_too_many_restarts`; if it reports too many, sleep
3600 s, clear the history entirely and `continue`; otherwise sleep
`restart_delay` and fall through to the next outer iteration.  Returns
`(sleep seconds, new restart_times, loop exited)` — neither branch exits
the loop. -/
def guardian_after_exit (restart_times : List Int) (now : Int)
    (max_restarts_per_hour : Nat) (restart_delay : Nat) : Nat × List Int × Bool :=
  let r := is_too_many_restarts (restart_times ++ [now]) now max_restarts_per_hour
  if r.1 then (3600, [], false) else (restart_delay, r.2, false)

/-! ## Guardian outer loop (`WatchdogGuardian.run`, lines 177-239) -/

/-- The externally observable outcome of one outer-loop iteration of
`WatchdogGuardian.run`: either `start_watchdog` returns `False`
(`start_failed`), or the worker starts and the inner poll loop observes it
exit after running for `d` seconds (`ran_for d`). -/
inductive GuardianOutcome
  | start_failed
  | ran_for (d : Nat)
deriving DecidableEq, Repr

/-- State threaded through `WatchdogGuardian.run`: the wall clock, the
`restart_times` history, and a ghost log of the times at which
`start_watchdog` was invoked. -/
structure GuardianSt where
  time : Int
  restart_times : List Int
  start_log : List Int
deriving DecidableEq, Repr

/-- One outer-loop iteration of `WatchdogGuardian.run` (lines 186-225):
`start_watchdog` is invoked at the current time (logged); if it fails the
loop sleeps `restart_delay` and retries, touching nothing else; if the
worker runs for `d` seconds and exits, the exit time is appended to
`restart_times`, `is_too_many_restarts` prunes and decides, and the loop
sleeps 3600 s clearing the history (too many) or sleeps `restart_delay`
(otherwise) before the next iteration. -/
def guardian_iter (restart_delay max_restarts_per_hour : Nat) (s : GuardianSt)
    (o : GuardianOutcome) : GuardianSt :=
  let s₁ : GuardianSt := { s with start_log := s.start_log ++ [s.time] }
  match o with
  | .start_failed => { s₁ with time := s₁.time + restart_delay }
  | .ran_for d =>
      let texit := s₁.time + d
      let r := guardian_after_exit s₁.restart_times texit max_restarts_per_hour restart_delay
      { s₁ with time := texit + r.1, restart_times := r.2.1 }

/-- Iterated `guardian_iter` over a sequence of iteration outcomes. -/
def guardian_run (restart_delay max_restarts_per_hour : Nat) :
    GuardianSt → List GuardianOutcome → GuardianSt
  | s, [] => s
  | s, o :: os =>
      guardian_run restart_delay max_restarts_per_hour
        (guardian_iter restart_delay max_restarts_per_hour s o) os

/-! ## Monitor loop (`WatchdogMonitor.monitor_loop`, lines 175-230) -/

/-- The externally observable outcome of one iteration of
`WatchdogMonitor.monitor_loop`: either the probes report healthy (process
exists and heartbeat ok), or a restart is needed and the abstracted
`subprocess.Popen` launch succeeds (`start_ok = true`) or raises. -/
inductive MonitorOutcome
  | healthy
  | needs_restart (start_ok : Bool)
deriving DecidableEq, Repr

/-- State threaded through `WatchdogMonitor.monitor_loop`: the wall clock,
the `restart_history`, and a ghost log of the times of successful
relaunches. -/
structure MonitorSt where
  time : Int
  restart_history : List Int
  restart_log : List Int
deriving DecidableEq, Repr

/-- One iteration of `WatchdogMonitor.monitor_loop` (lines 192-230): if the
probes are healthy, sleep `check_interval`; otherwise call
`restart_main_program` — on success sleep 30 s (stabilisation) plus
`check_interval` and log the relaunch, on failure (denied admission or
failed launch) sleep just `check_interval`. -/
def monitor_iter (check_interval max_restarts_per_hour : Nat) (s : MonitorSt)
    (o : MonitorOutcome) : MonitorSt :=
  match o with
  | .healthy => { s with time := s.time + check_interval }
  | .needs_restart ok =>
      let r := restart_main_program s.restart_history s.time max_restarts_per_hour ok
      if r.1 then
        { time := s.time + (monitor_sleep_after_restart true check_interval : Nat),
          restart_history := r.2,
          restart_log := s.restart_log ++ [s.time] }
      else
        { s with
          time := s.time + (monitor_sleep_after_restart false check_interval : Nat),
          restart_history := r.2 }

/-- Iterated `monitor_iter` over a sequence of iteration outcomes. -/
def monitor_run (check_interval max_restarts_per_hour : Nat) :
    MonitorSt → List MonitorOutcome → MonitorSt
  | s, [] => s
  | s, o :: os =>
      monitor_run check_interval max_restarts_per_hour
        (monitor_iter check_interval max_restarts_per_hour s o) os

/-! ## Spawn command lines -/

/-- `WatchdogGuardian.start_watchdog` line 124:
`cmd = [sys.executable, self.watchdog_script, "--auto-start"]`. -/
def guardian_start_cmd (python_exe watchdog_script : String) : List String :=
  [python_exe, watchdog_script, "--auto-start"]

/-- The argv passed to `subprocess.Popen` by
`WatchdogMonitor.restart_main_program` (lines 119-124):
`[sys.executable, self.main_script]` — no further arguments. -/
def monitor_start_cmd (python_exe main_script : String) : List String :=
  [python_exe, main_script]

/-! ## Closed-files display (`file_status_viewer.py`) -/

/-- `format_duration` (lines 12-23): seconds below a minute print as
seconds; below an hour as minutes and seconds; otherwise as hours and
minutes (all integer-truncated). -/
def format_duration (seconds : Nat) : String :=
  if seconds < 60 then toString seconds ++ "秒"
  else if seconds < 3600 then
    toString (seconds / 60) ++ "分" ++ toString (seconds % 60) ++ "秒"
  else
    toString (seconds / 3600) ++ "時" ++ toString ((seconds % 3600) / 60) ++ "分"

/-- `show_closed_files_table` line 153: for a file that is not open, the
displayed close time is fabricated as
`closed_at = opened_at + timedelta(minutes=20)`. -/
def closed_at (opened_at : Int) : Int := opened_at + 20 * 60

/-- `show_closed_files_table` lines 154-161: the displayed usage duration of
a closed file is `format_duration((closed_at - opened_at).total_seconds())`. -/
def closed_row_duration (opened_at : Int) : String :=
  format_duration (closed_at opened_at - opened_at).toNat

end Watchdog

namespace Watchdog

/-! ## Theorems -/

/-- C1: for every restart-event history and current time, both admission
checks (`check_restart_limit` denying, `is_too_many_restarts` reporting too
many) hold exactly when the count of events surviving the prune — the
events with timestamp strictly greater than `now - 3600` — reaches the
configured maximum; the prune keeps exactly the recorded events strictly
inside the trailing window, so an event exactly at the window boundary
`now - 3600` is always excluded. -/
theorem restart_limit_denied_iff (hist : List Int) (now : Int) (maxR : Nat) :
    ((check_restart_limit hist now maxR).1 = false ↔
        maxR ≤ (hist.filter (fun t => decide (now - 3600 < t))).length)
    ∧ ((is_too_many_restarts hist now maxR).1 = true ↔
        maxR ≤ (hist.filter (fun t => decide (now - 3600 < t))).length)
    ∧ (∀ t, t ∈ prune_history hist now 3600 ↔ t ∈ hist ∧ now - 3600 < t)
    ∧ (now - 3600) ∉ prune_history hist now 3600 := by
  refine ⟨?_, ?_, ?_, ?_⟩
  · unfold check_restart_limit prune_history
    by_cases h : (hist.filter (fun t => decide (now - 3600 < t))).length ≥ maxR <;>
      simp [h]
  · unfold is_too_many_restarts prune_history
    simp [ge_iff_le]
  · intro t
    unfold prune_history
    simp [List.mem_filter]
  · unfold prune_history
    simp [List.mem_filter]

/-- C1 witness: with one recorded event inside the window and a maximum of
1, the monitor denies and the guardian reports too many. -/
theorem restart_limit_denied_iff_witness :
    (check_restart_limit [0] 100 1).1 = false
    ∧ (is_too_many_restarts [0] 100 1).1 = true := by
  refine ⟨?_, ?_⟩
  · exact (restart_limit_denied_iff [0] 100 1).1.mpr (by decide)
  · exact (restart_limit_denied_iff [0] 100 1).2.1.mpr (by decide)

/-- C5: for a present, parsable heartbeat record with timestamp `t`,
an elapsed time exactly equal to the timeout is classified alive (strict
greater-than for staleness) and an elapsed time one second past the timeout
is classified stale. -/
theorem heartbeat_boundary (t T : Int) :
    check_heartbeat (.record (some t)) (t + T) T = .alive T
    ∧ check_heartbeat (.record (some t)) (t + T + 1) T = .stale (T + 1) := by
  constructor
  · simp [check_heartbeat]
  · have h : t + T + 1 - t = T + 1 := by ring
    simp [check_heartbeat, h]

/-- C10: a heartbeat file that parses but has no `"timestamp"` field is
never classified unreadable; the missing field defaults to 0 (the epoch),
so whenever the current time exceeds the timeout by at least one second the
record is classified stale with elapsed equal to the full current time. -/
theorem heartbeat_missing_field (now T : Int) (k : Nat) :
    check_heartbeat (.record none) now T ≠ .unreadable
    ∧ check_heartbeat (.record none) (T + (k + 1 : Nat)) T = .stale (T + (k + 1 : Nat)) := by
  constructor
  · unfold check_heartbeat
    simp only [Option.getD]
    split <;> simp
  · have h : T + ((k : Int) + 1) - 0 > T := by omega
    simp only [check_heartbeat, Option.getD]
    rw [if_pos (by push_cast; omega)]
    push_cast
    ring_nf

/-- C9: in the closed-files table the fabricated close time is always the
open time plus exactly 20 minutes (1200 s), and the displayed usage
duration is the constant string for 20 minutes, identical for every closed
file regardless of its history. -/
theorem closed_table_fixed_offset (o o₁ o₂ : Int) :
    closed_at o = o + 1200
    ∧ closed_at o - o = 1200
    ∧ closed_row_duration o = "20分0秒"
    ∧ closed_row_duration o₁ = closed_row_duration o₂ := by
  refine ⟨by simp [closed_at], by simp [closed_at], ?_, ?_⟩
  · have h : closed_at o - o = 1200 := by simp [closed_at]
    rw [closed_row_duration, h]
    decide
  · have h : ∀ x : Int, closed_row_duration x = "20分0秒" := by
      intro x
      have hx : closed_at x - x = 1200 := by simp [closed_at]
      rw [closed_row_duration, hx]
      decide
    rw [h o₁, h o₂]

/-- C2 counterexample: with five in-window events and a maximum of five,
the monitor's admission check denies, yet one monitor-loop iteration
advances the clock by only the 60 s check interval (not the 3600 s window)
and leaves the five-event history intact (not cleared). -/
theorem monitor_denied_counterexample :
    (check_restart_limit [0, 1, 2, 3, 4] 100 5).1 = false
    ∧ monitor_iter 60 5 ⟨100, [0, 1, 2, 3, 4], []⟩ (.needs_restart true)
        = ⟨160, [0, 1, 2, 3, 4], []⟩
    ∧ (160 : Int) - 100 ≠ 3600
    ∧ ([0, 1, 2, 3, 4] : List Int) ≠ [] := by decide

/-- C2 amended: only the guardian loop backs off for the full window on a
denied admission — it sleeps 3600 s, clears the entire history and
continues (never exits); the monitor loop, on a denied admission, has
`restart_main_program` return failure with the history merely pruned (not
cleared) and sleeps only the check interval before the next probe cycle. -/
theorem denied_backoff_behaviour (hist : List Int) (now : Int)
    (maxR restart_delay check_interval : Nat) :
    ((is_too_many_restarts (hist ++ [now]) now maxR).1 = true →
        guardian_after_exit hist now maxR restart_delay = (3600, [], false))
    ∧ (guardian_after_exit hist now maxR restart_delay).2.2 = false
    ∧ ((check_restart_limit hist now maxR).1 = false →
        (restart_main_program hist now maxR true).1 = false
        ∧ (restart_main_program hist now maxR true).2 = prune_history hist now 3600
        ∧ monitor_sleep_after_restart (restart_main_program hist now maxR true).1
            check_interval = check_interval) := by
  refine ⟨?_, ?_, ?_⟩
  · intro h
    simp [guardian_after_exit, h]
  · by_cases h : (is_too_many_restarts (hist ++ [now]) now maxR).1 = true <;>
      simp [guardian_after_exit, h]
  · intro h
    have h₁ : (restart_main_program hist now maxR true).1 = false := by
      unfold restart_main_program
      simp [h]
    refine ⟨h₁, ?_, by simp [monitor_sleep_after_restart, h₁]⟩
    unfold restart_main_program
    simp only [h]
    simp [check_restart_limit]
    split <;> rfl

/-- C2 witness: five events at times 0..4 with a maximum of five at time
100 — the guardian backs off 3600 s clearing everything, while the monitor
returns failure and sleeps 60 s. -/
theorem denied_backoff_behaviour_witness :
    guardian_after_exit [0, 1, 2, 3, 4] 100 5 5 = (3600, [], false)
    ∧ (restart_main_program [0, 1, 2, 3, 4] 100 5 true).1 = false
    ∧ monitor_sleep_after_restart
        (restart_main_program [0, 1, 2, 3, 4] 100 5 true).1 60 = 60 := by
  refine ⟨(denied_backoff_behaviour [0, 1, 2, 3, 4] 100 5 5 60).1 (by decide), ?_, ?_⟩
  · exact ((denied_backoff_behaviour [0, 1, 2, 3, 4] 100 5 5 60).2.2 (by decide)).1
  · exact ((denied_backoff_behaviour [0, 1, 2, 3, 4] 100 5 5 60).2.2 (by decide)).2.2

/-- C3 counterexample: stopping a running worker whose graceful path hangs
through the monitor's restart stop issues no forced kill and leaves the
worker running — the two-phase termination does not run to completion
there. -/
theorem monitor_stop_counterexample :
    (monitor_restart_stop ⟨true, none⟩).kill_issued = false
    ∧ (monitor_restart_stop ⟨true, none⟩).still_running = true := by decide

/-- C3 amended: the guaranteed graceful-then-forced stop holds only for the
guardian's shutdown stop — it never leaves the worker running and issues
the forced kill whenever a running worker ignores the terminate request for
the 2 s grace period; the monitor's restart-path stop never issues a forced
kill, and a running worker that does not exit within the 10 s wait is left
running. -/
theorem two_phase_stop_guardian_only (p : WorkerProc) :
    (guardian_shutdown_stop p).still_running = false
    ∧ (p.running = true → responds_within p 2 = false →
        (guardian_shutdown_stop p).kill_issued = true)
    ∧ (monitor_restart_stop p).kill_issued = false
    ∧ (p.running = true → responds_within p 10 = false →
        (monitor_restart_stop p).still_running = true) := by
  obtain ⟨r, g⟩ := p
  cases r
  · exact ⟨by simp [guardian_shutdown_stop], by intro h; simp at h,
      by simp [monitor_restart_stop], by intro h; simp at h⟩
  · refine ⟨?_, ?_, ?_, ?_⟩
    · cases h : responds_within ⟨true, g⟩ 2 <;> simp [guardian_shutdown_stop, h]
    · intro _ h₂
      simp [guardian_shutdown_stop, h₂]
    · cases h : responds_within ⟨true, g⟩ 10 <;> simp [monitor_restart_stop, h]
    · intro _ h₁₀
      simp [monitor_restart_stop, h₁₀]

/-- C3 witness: a running worker with a hung graceful path — the guardian's
stop kills it, the monitor's stop leaves it running. -/
theorem two_phase_stop_guardian_only_witness :
    (guardian_shutdown_stop ⟨true, some 5⟩).kill_issued = true
    ∧ (monitor_restart_stop ⟨true, some 20⟩).still_running = true :=
  ⟨(two_phase_stop_guardian_only ⟨true, some 5⟩).2.1 rfl (by decide),
   (two_phase_stop_guardian_only ⟨true, some 20⟩).2.2.2 rfl (by decide)⟩

/-- C4 counterexample: when the interrupt reaches the monitor loop while a
worker it spawned is running, the loop exits, but no stop of any kind is
performed and the worker is left running. -/
theorem monitor_interrupt_counterexample :
    (monitor_interrupt ⟨true, some 0⟩).2 = true
    ∧ (monitor_interrupt ⟨true, some 0⟩).1.kill_issued = false
    ∧ (monitor_interrupt ⟨true, some 0⟩).1.still_running = true := by decide

/-- C4 amended: on an interrupt the guardian exits its loop after a
graceful-then-forced stop that never leaves the owned worker running; the
monitor loop also exits on interrupt, but issues no kill and leaves its
spawned worker in whatever running state it had. -/
theorem interrupt_stop_behaviour (p : WorkerProc) :
    (guardian_interrupt p).2 = true
    ∧ (guardian_interrupt p).1.still_running = false
    ∧ (monitor_interrupt p).2 = true
    ∧ (monitor_interrupt p).1.still_running = p.running
    ∧ (monitor_interrupt p).1.kill_issued = false := by
  obtain ⟨r, g⟩ := p
  refine ⟨rfl, ?_, rfl, rfl, rfl⟩
  cases r
  · simp [guardian_interrupt, guardian_shutdown_stop]
  · cases h : responds_within ⟨true, g⟩ 2 <;>
      simp [guardian_interrupt, guardian_shutdown_stop, h]

/-- C8 counterexample: the monitor relaunches the worker with only the
interpreter and the script path — the non-interactive flag is absent from
the spawned command line. -/
theorem monitor_cmd_counterexample :
    monitor_start_cmd "python.exe" "main.py" = ["python.exe", "main.py"]
    ∧ "--auto-start" ∉ monitor_start_cmd "python.exe" "main.py" := by
  refine ⟨rfl, ?_⟩
  simp [monitor_start_cmd]

/-- C8 amended: only the guardian's launch passes the non-interactive
`--auto-start` flag; the monitor's relaunch command line is exactly the
interpreter followed by the script, with no additional flag. -/
theorem start_cmd_flag (p s : String) :
    "--auto-start" ∈ guardian_start_cmd p s
    ∧ guardian_start_cmd p s = [p, s, "--auto-start"]
    ∧ monitor_start_cmd p s = [p, s] := by
  refine ⟨?_, rfl, rfl⟩
  simp [guardian_start_cmd]

/-- A guardian iteration always appends the invocation time of
`start_watchdog` to the start log. -/
lemma guardian_iter_log (delay maxR : Nat) (s : GuardianSt) (o : GuardianOutcome) :
    (guardian_iter delay maxR s o).start_log = s.start_log ++ [s.time] := by
  cases o <;> rfl

/-- The sleep chosen after a worker exit is at least the restart delay,
provided the delay does not exceed the 3600 s backoff. -/
lemma guardian_after_exit_sleep (times : List Int) (now : Int) (maxR delay : Nat)
    (hd : delay ≤ 3600) :
    delay ≤ (guardian_after_exit times now maxR delay).1 := by
  by_cases h : (is_too_many_restarts (times ++ [now]) now maxR).1 = true
  · simpa [guardian_after_exit, h] using hd
  · simp [guardian_after_exit, h]

/-- A guardian iteration advances the clock by at least the restart delay
(the worker's run time and any backoff only add to it). -/
lemma guardian_iter_time (delay maxR : Nat) (hd : delay ≤ 3600) (s : GuardianSt)
    (o : GuardianOutcome) :
    s.time + (delay : Int) ≤ (guardian_iter delay maxR s o).time := by
  cases o with
  | start_failed => simp [guardian_iter]
  | ran_for d =>
      have h := guardian_after_exit_sleep s.restart_times (s.time + (d : Int)) maxR delay hd
      have h' : (delay : Int) ≤
          ((guardian_after_exit s.restart_times (s.time + (d : Int)) maxR delay).1 : Int) := by
        exact_mod_cast h
      have hdnn : (0 : Int) ≤ (d : Int) := Int.natCast_nonneg d
      show s.time + (delay : Int) ≤ s.time + (d : Int) +
        ((guardian_after_exit s.restart_times (s.time + (d : Int)) maxR delay).1 : Int)
      omega

/-- Invariant induction for the guardian loop: if the start log is spaced
by at least the restart delay and its last entry is at least a delay behind
the clock, this stays true under any sequence of iteration outcomes. -/
lemma guardian_run_chain (delay maxR : Nat) (hd : delay ≤ 3600) :
    ∀ (os : List GuardianOutcome) (s : GuardianSt),
      s.start_log.Chain' (fun a b => a + (delay : Int) ≤ b) →
      (∀ l ∈ s.start_log.getLast?, l + (delay : Int) ≤ s.time) →
      (guardian_run delay maxR s os).start_log.Chain'
        (fun a b => a + (delay : Int) ≤ b) := by
  intro os
  induction os with
  | nil => intro s h₁ _; exact h₁
  | cons o os ih =>
      intro s h₁ h₂
      apply ih
      · rw [guardian_iter_log]
        rw [List.chain'_append]
        refine ⟨h₁, List.chain'_singleton _, ?_⟩
        intro x hx y hy
        simp only [List.head?_cons, Option.mem_def, Option.some.injEq] at hy
        subst hy
        exact h₂ x hx
      · intro l hl
        rw [guardian_iter_log, List.getLast?_concat] at hl
        simp only [Option.mem_def, Option.some.injEq] at hl
        subst hl
        exact guardian_iter_time delay maxR hd s o

/-- A monitor iteration never moves the clock backwards. -/
lemma monitor_iter_time (ci maxR : Nat) (s : MonitorSt) (o : MonitorOutcome) :
    s.time ≤ (monitor_iter ci maxR s o).time := by
  cases o with
  | healthy => simp [monitor_iter]
  | needs_restart ok =>
      by_cases h : (restart_main_program s.restart_history s.time maxR ok).1 = true
      · simp [monitor_iter, h, monitor_sleep_after_restart]
        positivity
      · simp [monitor_iter, h, monitor_sleep_after_restart]

/-- A monitor iteration either leaves the restart log alone, or logs a
restart at the current time and advances the clock by the 30 s
stabilisation sleep plus the check interval. -/
lemma monitor_iter_cases (ci maxR : Nat) (s : MonitorSt) (o : MonitorOutcome) :
    (monitor_iter ci maxR s o).restart_log = s.restart_log
    ∨ ((monitor_iter ci maxR s o).restart_log = s.restart_log ++ [s.time]
        ∧ s.time + ((30 : Int) + (ci : Int)) ≤ (monitor_iter ci maxR s o).time) := by
  cases o with
  | healthy => left; rfl
  | needs_restart ok =>
      by_cases h : (restart_main_program s.restart_history s.time maxR ok).1 = true
      · right
        refine ⟨by simp [monitor_iter, h], ?_⟩
        simp [monitor_iter, h, monitor_sleep_after_restart]
      · left
        simp [monitor_iter, h]

/-- Invariant induction for the monitor loop: the successful-relaunch log
stays spaced by at least 30 s plus the check interval. -/
lemma monitor_run_chain (ci maxR : Nat) :
    ∀ (ms : List MonitorOutcome) (s : MonitorSt),
      s.restart_log.Chain' (fun a b => a + ((30 : Int) + (ci : Int)) ≤ b) →
      (∀ l ∈ s.restart_log.getLast?, l + ((30 : Int) + (ci : Int)) ≤ s.time) →
      (monitor_run ci maxR s ms).restart_log.Chain'
        (fun a b => a + ((30 : Int) + (ci : Int)) ≤ b) := by
  intro ms
  induction ms with
  | nil => intro s h₁ _; exact h₁
  | cons o os ih =>
      intro s h₁ h₂
      rcases monitor_iter_cases ci maxR s o with h | ⟨hlog, htime⟩
      · apply ih
        · rw [h]; exact h₁
        · intro l hl
          rw [h] at hl
          exact le_trans (h₂ l hl) (monitor_iter_time ci maxR s o)
      · apply ih
        · rw [hlog, List.chain'_append]
          refine ⟨h₁, List.chain'_singleton _, ?_⟩
          intro x hx y hy
          simp only [List.head?_cons, Option.mem_def, Option.some.injEq] at hy
          subst hy
          exact h₂ x hx
        · intro l hl
          rw [hlog, List.getLast?_concat] at hl
          simp only [Option.mem_def, Option.some.injEq] at hl
          subst hl
          exact htime

/-- C7: starting from an empty log, for every sequence of iteration
outcomes the guardian loop never invokes two worker starts within the
configured restart delay of each other (each pair of consecutive starts is
at least `restart_delay` apart, given the delay does not exceed the 3600 s
backoff, as in the shipped configuration of 5 s), and the monitor loop
never performs two successful relaunches within 30 s plus the check
interval of each other. -/
theorem restarts_spaced (restart_delay maxR check_interval maxR₂ : Nat)
    (hd : restart_delay ≤ 3600) (os : List GuardianOutcome) (t₀ : Int)
    (ms : List MonitorOutcome) (u₀ : Int) :
    ((guardian_run restart_delay maxR ⟨t₀, [], []⟩ os).start_log.Chain'
      (fun a b => a + (restart_delay : Int) ≤ b))
    ∧ ((monitor_run check_interval maxR₂ ⟨u₀, [], []⟩ ms).restart_log.Chain'
      (fun a b => a + ((30 : Int) + (check_interval : Int)) ≤ b)) := by
  constructor
  · exact guardian_run_chain restart_delay maxR hd os ⟨t₀, [], []⟩ (by simp) (by simp)
  · exact monitor_run_chain check_interval maxR₂ ms ⟨u₀, [], []⟩ (by simp) (by simp)

/-- C7 witness: the shipped configuration (guardian delay 5 s, maximum 10;
monitor interval 60 s, maximum 5) on concrete outcome sequences. -/
theorem restarts_spaced_witness :
    ((guardian_run 5 10 ⟨0, [], []⟩
        [.ran_for 3, .start_failed, .ran_for 0]).start_log.Chain'
      (fun a b => a + ((5 : Nat) : Int) ≤ b))
    ∧ ((monitor_run 60 5 ⟨0, [], []⟩
        [.needs_restart true, .healthy, .needs_restart true]).restart_log.Chain'
      (fun a b => a + ((30 : Int) + ((60 : Nat) : Int)) ≤ b)) :=
  restarts_spaced 5 10 60 5 (by decide)
    [.ran_for 3, .start_failed, .ran_for 0] 0
    [.needs_restart true, .healthy, .needs_restart true] 0

/-- Consecutive start failures leave the guardian history untouched and
advance the clock by exactly one restart delay per attempt. -/
lemma guardian_run_replicate_fail (delay maxR : Nat) (n : Nat) :
    ∀ s : GuardianSt,
      (guardian_run delay maxR s (List.replicate n .start_failed)).restart_times
        = s.restart_times
      ∧ (guardian_run delay maxR s (List.replicate n .start_failed)).time
        = s.time + (n : Int) * (delay : Int) := by
  induction n with
  | zero => intro s; simp [guardian_run]
  | succ k ih =>
      intro s
      rw [List.replicate_succ]
      have hstep : guardian_run delay maxR s
            (.start_failed :: List.replicate k .start_failed)
          = guardian_run delay maxR (guardian_iter delay maxR s .start_failed)
              (List.replicate k .start_failed) := rfl
      rw [hstep]
      obtain ⟨h₁, h₂⟩ := ih (guardian_iter delay maxR s .start_failed)
      have hrt : (guardian_iter delay maxR s .start_failed).restart_times
          = s.restart_times := rfl
      refine ⟨h₁.trans hrt, ?_⟩
      rw [h₂]
      have htime : (guardian_iter delay maxR s .start_failed).time
          = s.time + (delay : Int) := rfl
      rw [htime]
      push_cast
      ring

/-- C6: a failed start attempt never adds a restart event — across any
number of consecutive start failures the guardian loop keeps retrying
(advancing exactly one restart delay per attempt, so it stays in the
starting phase) with its restart history unchanged; likewise the monitor's
`restart_main_program` with a failed launch reports failure and leaves the
history merely pruned, appending nothing; and with an empty history and a
positive maximum the admission check never denies, so start failures alone
never cause a denial. -/
theorem start_failures_not_recorded (restart_delay maxR : Nat) (s : GuardianSt)
    (n : Nat) (hist : List Int) (now : Int) (maxR₂ : Nat) :
    (guardian_run restart_delay maxR s (List.replicate n .start_failed)).restart_times
      = s.restart_times
    ∧ (guardian_run restart_delay maxR s (List.replicate n .start_failed)).time
      = s.time + (n : Int) * (restart_delay : Int)
    ∧ (restart_main_program hist now maxR₂ false).1 = false
    ∧ (restart_main_program hist now maxR₂ false).2 = prune_history hist now 3600
    ∧ (0 < maxR₂ → (is_too_many_restarts [] now maxR₂).1 = false) := by
  obtain ⟨h₁, h₂⟩ := guardian_run_replicate_fail restart_delay maxR n s
  refine ⟨h₁, h₂, ?_, ?_, ?_⟩
  · unfold restart_main_program check_restart_limit
    by_cases h : (prune_history hist now 3600).length ≥ maxR₂ <;> simp [h]
  · unfold restart_main_program check_restart_limit
    by_cases h : (prune_history hist now 3600).length ≥ maxR₂ <;> simp [h]
  · intro h
    simp only [is_too_many_restarts, prune_history, List.filter_nil, List.length_nil,
      ge_iff_le, decide_eq_false_iff_not]
    omega

/-- C6 witness: three consecutive start failures from an empty history at
the shipped guardian configuration leave the history empty, take exactly
three restart delays, and the admission check still allows. -/
theorem start_failures_not_recorded_witness :
    (guardian_run 5 10 ⟨0, [], []⟩ (List.replicate 3 .start_failed)).restart_times = []
    ∧ (guardian_run 5 10 ⟨0, [], []⟩ (List.replicate 3 .start_failed)).time
        = 0 + ((3 : Nat) : Int) * ((5 : Nat) : Int)
    ∧ (is_too_many_restarts [] 0 10).1 = false := by
  obtain ⟨h₁, h₂, _, _, h₅⟩ := start_failures_not_recorded 5 10 ⟨0, [], []⟩ 3 [] 0 10
  exact ⟨h₁, h₂, h₅ (by decide)⟩

end Watchdog
